import Mathlib

/-!
Verification of the MuleSoft demo MCP server (`mulesoft_mcp_server_demo.py`)
and its HTTP wrapper (`render_server.py`) against the natural-language
specification.

Shallow embedding conventions:
* JSON documents built by `json.dumps` are modelled by the inductive `JVal`;
  serialization by the Python standard library is abstracted away, so a tool
  that returns `json.dumps(obj)` is modelled as returning the `JVal` for `obj`.
* `datetime.utcnow().isoformat()` is modelled by a `now : String` parameter.
* `subprocess.run(argv, check=True)` is modelled by a `RunResult` parameter
  describing the behaviour of the external `anypoint-cli` process: normal
  exit 0 with captured stdout, non-zero exit (Python raises
  `subprocess.CalledProcessError` carrying stderr), or a spawn failure such
  as `FileNotFoundError` when the executable is absent (any other exception
  raised by `subprocess.run` itself).
* A tool call returns a `ToolResult`: its outcome (a JSON document, a raw
  string, or a propagated Python exception) together with the list of
  external commands it (attempted to) spawn.
* `json.loads` on the `properties` argument is modelled by an abstract parse
  oracle `parsed : Option JVal` (`none` = `json.JSONDecodeError`).
* Python `str.lower` is modelled by `pyLower` (ASCII lowering).
-/

namespace MuleSoftDemo

/-- JSON values (the image of Python objects under `json.dumps`). -/
inductive JVal where
  | s (v : String)
  | n (v : Rat)
  | b (v : Bool)
  | null
  | arr (xs : List JVal)
  | o (fields : List (String × JVal))

/-- Top-level JSON type tags, for shape checks. -/
inductive JTy where
  | str | num | bool | null | arr | obj
  deriving DecidableEq

def JVal.lookup : JVal → String → Option JVal
  | .o fields, k => fields.lookup k
  | _, _ => none

def JVal.getStr (v : JVal) (k : String) : Option String :=
  match v.lookup k with
  | some (.s x) => some x
  | _ => none

def JVal.ty : JVal → JTy
  | .s _ => .str
  | .n _ => .num
  | .b _ => .bool
  | .null => .null
  | .arr _ => .arr
  | .o _ => .obj

def JVal.hasKeyTy (v : JVal) (k : String) (t : JTy) : Bool :=
  match v.lookup k with
  | some w => w.ty == t
  | none => false

def JVal.hasShape (v : JVal) (shape : List (String × JTy)) : Bool :=
  shape.all fun kt => v.hasKeyTy kt.1 kt.2

/-- Python `str.lower` (ASCII lowering, which is all the flag values use). -/
def pyLower (s : String) : String := String.mk (s.data.map Char.toLower)

/-- Behaviour of one `subprocess.run(argv, capture_output=True, text=True,
check=True)` invocation of the external `anypoint-cli` process. -/
inductive RunResult where
  | ok (stdout : String)
  | calledProcessError (stderr : String)
  | spawnFailure (msg : String)

/-- What a tool call hands back to its caller: a JSON document (mock mode),
a raw string (live stdout or a formatted error string), or a Python
exception that escapes the function body. -/
inductive ToolOutcome where
  | json (v : JVal)
  | raw (s : String)
  | exn (msg : String)

def ToolOutcome.returned : ToolOutcome → Bool
  | .json _ => true
  | .raw _ => true
  | .exn _ => false

/-- Result of a tool call: the outcome plus the argv of every external
process the call (attempted to) spawn. -/
structure ToolResult where
  outcome : ToolOutcome
  spawned : List (List String)

/-- The live-mode relay shared verbatim by every tool except
`execute_custom_anypoint_command`: `try: subprocess.run(..., check=True);
return result.stdout except subprocess.CalledProcessError as e: return
f"Error: \x7be.stderr\x7d"`. A spawn failure matches no `except` clause
and propagates. -/
def run_live (r : RunResult) : ToolOutcome :=
  match r with
  | .ok out => .raw out
  | .calledProcessError err => .raw ("Error: " ++ err)
  | .spawnFailure msg => .exn msg

/-- MOCK_MODE as computed at line 25 of `mulesoft_mcp_server_demo.py` from
the value of the `MULESOFT_MOCK_MODE` environment variable. -/
def mockModeOf (envVal : Option String) : Bool :=
  pyLower (envVal.getD "true") == "true"

/-- Mock payload of `list_applications` (lines 40-107). -/
def list_applications_mock (environment : String) : JVal :=
  .o [("applications", .arr [
        .o [("name", .s "customer-api"),
            ("status", .s "STARTED"),
            ("environment", .s environment),
            ("workers", .n 2),
            ("workerType", .s "MICRO"),
            ("region", .s "us-east-1"),
            ("lastModified", .s "2026-02-10T14:30:00Z"),
            ("muleVersion", .s "4.4.0")],
        .o [("name", .s "payment-processor"),
            ("status", .s "STARTED"),
            ("environment", .s environment),
            ("workers", .n 4),
            ("workerType", .s "SMALL"),
            ("region", .s "us-east-1"),
            ("lastModified", .s "2026-02-12T09:15:00Z"),
            ("muleVersion", .s "4.4.0")],
        .o [("name", .s "order-fulfillment-api"),
            ("status", .s "FAILED"),
            ("environment", .s environment),
            ("workers", .n 2),
            ("workerType", .s "MICRO"),
            ("region", .s "us-west-2"),
            ("lastModified", .s "2026-02-14T08:00:00Z"),
            ("muleVersion", .s "4.3.0"),
            ("errorMessage", .s "Application failed to start due to configuration error")],
        .o [("name", .s "inventory-sync-service"),
            ("status", .s "STARTED"),
            ("environment", .s environment),
            ("workers", .n 1),
            ("workerType", .s "MICRO"),
            ("region", .s "us-east-1"),
            ("lastModified", .s "2026-01-28T11:20:00Z"),
            ("muleVersion", .s "4.4.0")],
        .o [("name", .s "oauth-authentication-experience-api"),
            ("status", .s "STARTED"),
            ("environment", .s environment),
            ("workers", .n 2),
            ("workerType", .s "SMALL"),
            ("region", .s "us-east-1"),
            ("lastModified", .s "2026-02-14T18:35:00Z"),
            ("muleVersion", .s "4.4.0"),
            ("statusReason", .s "High error rate - 504 Gateway Timeout from downstream Cognito")],
        .o [("name", .s "cards-sca-business-api"),
            ("status", .s "STARTED"),
            ("environment", .s environment),
            ("workers", .n 3),
            ("workerType", .s "MICRO"),
            ("region", .s "us-east-1"),
            ("lastModified", .s "2026-02-10T09:00:00Z"),
            ("muleVersion", .s "4.4.0"),
            ("statusReason", .s "Experiencing intermittent failures due to OAuth token issues")]]),
      ("total", .n 6)]

/-- `list_applications` (lines 31-120). -/
def list_applications (mock : Bool) (environment : String) (r : RunResult) : ToolResult :=
  if mock then
    ⟨.json (list_applications_mock environment), []⟩
  else
    ⟨run_live r,
     [["anypoint-cli", "runtime-mgr", "cloudhub-application", "list",
       "--environment", environment]]⟩

/-- Mock payload of `describe_application` for `app_name =
"order-fulfillment-api"` (lines 133-178): `status = "FAILED"` and the
`error_info` keys are merged at the end of the `application` object. -/
def describe_application_failed (app_name environment : String) : JVal :=
  .o [("application",
    .o [("name", .s app_name),
        ("status", .s "FAILED"),
        ("environment", .s environment),
        ("domain", .s (app_name ++ ".us-e1.cloudhub.io")),
        ("workers", .o [
          ("amount", .n 2),
          ("type", .o [
            ("name", .s "MICRO"),
            ("weight", .n (1/10)),
            ("cpu", .s "0.1 vCores"),
            ("memory", .s "500 MB")])]),
        ("region", .s "us-east-1"),
        ("muleVersion", .s "4.4.0"),
        ("lastModified", .s "2026-02-14T08:00:00Z"),
        ("properties", .o [
          ("http.port", .s "8081"),
          ("anypoint.platform.client_id", .s "***masked***"),
          ("anypoint.platform.client_secret", .s "***masked***")]),
        ("runtime", .o [
          ("javaVersion", .s "1.8.0_345"),
          ("staticIpsEnabled", .b false),
          ("persistentQueues", .b true)]),
        ("errorMessage", .s "Application failed to start"),
        ("errorDetails", .s "Configuration property \x27db.host\x27 is missing"),
        ("lastDeployment", .o [
          ("status", .s "FAILED"),
          ("timestamp", .s "2026-02-14T08:00:00Z"),
          ("deployedBy", .s "admin@company.com")])])]

/-- Mock payload of `describe_application` for any other name (lines
144-178): `status = "STARTED"`, empty `error_info`. -/
def describe_application_default (app_name environment : String) : JVal :=
  .o [("application",
    .o [("name", .s app_name),
        ("status", .s "STARTED"),
        ("environment", .s environment),
        ("domain", .s (app_name ++ ".us-e1.cloudhub.io")),
        ("workers", .o [
          ("amount", .n 2),
          ("type", .o [
            ("name", .s "MICRO"),
            ("weight", .n (1/10)),
            ("cpu", .s "0.1 vCores"),
            ("memory", .s "500 MB")])]),
        ("region", .s "us-east-1"),
        ("muleVersion", .s "4.4.0"),
        ("lastModified", .s "2026-02-14T08:00:00Z"),
        ("properties", .o [
          ("http.port", .s "8081"),
          ("anypoint.platform.client_id", .s "***masked***"),
          ("anypoint.platform.client_secret", .s "***masked***")]),
        ("runtime", .o [
          ("javaVersion", .s "1.8.0_345"),
          ("staticIpsEnabled", .b false),
          ("persistentQueues", .b true)])])]

/-- Mock branch of `describe_application` (lines 131-178). -/
def describe_application_mock (app_name environment : String) : JVal :=
  if app_name = "order-fulfillment-api" then
    describe_application_failed app_name environment
  else
    describe_application_default app_name environment

/-- `describe_application` (lines 122-190). -/
def describe_application (mock : Bool) (app_name environment : String)
    (r : RunResult) : ToolResult :=
  if mock then
    ⟨.json (describe_application_mock app_name environment), []⟩
  else
    ⟨run_live r,
     [["anypoint-cli", "runtime-mgr", "cloudhub-application", "describe",
       app_name, "--environment", environment]]⟩

/-- Mock log lines of `get_application_logs` (lines 204-266), selected by
`app_name`. Literal braces from the source log text are written as escaped
characters. -/
def get_application_logs_lines (app_name : String) : List JVal :=
  if app_name = "oauth-authentication-experience-api" then [
    .s "2024-09-06T18:35:07.628Z INFO [[MuleRuntime].uber.15: [oauth-authentication-experience-api].oauth-authentication-exp-11ef-8a7b-0ab70e1f9a09] org.mule.runtime.core.internal.processor.LoggerMessageProcessor: \x7b",
    .s "  \"Correlation ID\": \"8feb64fb-ce26-42b9-a37c-1d0774cba23d\",",
    .s "  \"Transaction ID\": \"8feb64fb-ce26-42b9-a37c-1d0774cba23d\",",
    .s "  \"Application Name\": \"API Gateway OAuth2 Experience API\",",
    .s "  \"Date Time Stamp\": \"2024-09-06T18:35:07.628Z\",",
    .s "  \"type\": \"ERROR\",",
    .s "  \"status_code\": 504,",
    .s "  \"action\": \"ERROR RESPONSE SENT\",",
    .s "  \"Headers\": \x7b",
    .s "    \"x-api-transaction-id\": \"ca1b58b2-c34f-4af2-9bf2-fe247f13c56e\",",
    .s "    \"x-api-correlation-id\": \"5bcfadd8-919a-4d76-8b43-44ddbaa061e9\",",
    .s "    \"x-ratelimit-remaining\": \"24\",",
    .s "    \"x-ratelimit-limit\": \"25\",",
    .s "    \"x-ratelimit-reset\": \"857\"",
    .s "  \x7d",
    .s "\x7d",
    .s "2024-09-06T18:35:08.145Z ERROR Cognito System API returned timeout after 5000ms",
    .s "2024-09-06T18:35:08.146Z WARN Rate limit approaching - 24 of 25 requests remaining",
    .s "2024-09-06T18:36:12.334Z ERROR [[MuleRuntime].uber.15] Gateway timeout - Unable to obtain access token from Cognito",
    .s "2024-09-06T18:36:12.335Z ERROR Cards SCA authentication flow failed - access token generation timeout",
    .s "2024-09-06T18:37:45.221Z INFO Retry attempt 1/3 for access token generation",
    .s "2024-09-06T18:37:50.445Z ERROR Retry failed - Cognito System API still timing out"]
  else if app_name = "cards-sca-business-api" then [
    .s "2024-09-06T18:34:00.123Z INFO Processing Cards SCA eCommerce transaction request",
    .s "2024-09-06T18:34:00.450Z INFO Calling OAuth authentication experience API for token",
    .s "2024-09-06T18:34:05.678Z ERROR OAuth API returned 504 - Gateway Timeout",
    .s "2024-09-06T18:34:05.679Z ERROR Unable to authenticate user - access token unavailable",
    .s "2024-09-06T18:34:05.680Z WARN Transaction failed - returning error to customer",
    .s "2024-09-06T18:35:30.123Z INFO Retry transaction attempt",
    .s "2024-09-06T18:35:35.890Z ERROR OAuth API still failing - 504 Gateway Timeout",
    .s "2024-09-06T18:36:00.234Z WARN Failure rate increased to 12% in last 30 minutes",
    .s "2024-09-06T18:36:00.235Z ERROR Customer impact: Unable to process debit card transaction",
    .s "2024-09-06T18:36:00.236Z ERROR Customer impact: Unable to process credit card transaction"]
  else if app_name = "order-fulfillment-api" then [
    .s "2026-02-14 08:00:15 ERROR [main] org.mule.runtime.core.internal.context.DefaultMuleContext: Error starting application",
    .s "2026-02-14 08:00:15 ERROR [main] org.mule.runtime.module.deployment.impl.DefaultApplicationDeployer: Failed to deploy application",
    .s "2026-02-14 08:00:15 ERROR [main] Configuration property \x27db.host\x27 is required but not set",
    .s "2026-02-14 08:00:15 FATAL [main] Application startup failed",
    .s "2026-02-14 08:00:16 INFO  [main] org.mule.runtime.module.deployment.impl.DefaultApplicationDeployer: Application deployment failed: order-fulfillment-api"]
  else if app_name = "payment-processor" then [
    .s "2026-02-14 10:15:23 INFO  [http-listener-1] Received payment request ID: pay-12345",
    .s "2026-02-14 10:15:24 WARN  [http-listener-1] Payment gateway response time: 2500ms (threshold: 2000ms)",
    .s "2026-02-14 10:15:24 INFO  [http-listener-1] Payment processed successfully: pay-12345",
    .s "2026-02-14 10:16:05 ERROR [http-listener-2] Payment gateway timeout after 5000ms",
    .s "2026-02-14 10:16:05 ERROR [http-listener-2] Retrying payment request: pay-12346",
    .s "2026-02-14 10:16:08 INFO  [http-listener-2] Payment retry successful: pay-12346",
    .s "2026-02-14 10:17:12 WARN  [scheduler-1] Database connection pool: 8/10 connections in use"]
  else [
    .s "2026-02-14 10:20:00 INFO  [http-listener-1] Processing request",
    .s "2026-02-14 10:20:01 INFO  [http-listener-1] Request completed successfully",
    .s "2026-02-14 10:21:15 INFO  [scheduler-1] Scheduled task executed"]

/-- Mock branch of `get_application_logs` (lines 203-273). The
`tail_lines` parameter is not consulted on this branch. -/
def get_application_logs_mock (app_name environment now : String) : JVal :=
  .o [("applicationName", .s app_name),
      ("environment", .s environment),
      ("logLines", .arr (get_application_logs_lines app_name)),
      ("timestamp", .s (now ++ "Z"))]

/-- `get_application_logs` (lines 192-285). -/
def get_application_logs (mock : Bool) (app_name environment : String)
    (tail_lines : Int) (now : String) (r : RunResult) : ToolResult :=
  if mock then
    ⟨.json (get_application_logs_mock app_name environment now), []⟩
  else
    ⟨run_live r,
     [["anypoint-cli", "runtime-mgr", "cloudhub-application", "tail-logs",
       app_name, "--environment", environment, "--lines", toString tail_lines]]⟩

/-- Mock payload of `list_apis` (lines 300-333). -/
def list_apis_mock (environment : String) : JVal :=
  .o [("apis", .arr [
        .o [("id", .s "12345"),
            ("name", .s "Customer API"),
            ("version", .s "v1"),
            ("status", .s "ACTIVE"),
            ("endpoint", .s "https://customer-api.us-e1.cloudhub.io/api/v1"),
            ("instanceLabel", .s "customer-api-prod"),
            ("assetVersion", .s "1.0.5"),
            ("environment", .s environment)],
        .o [("id", .s "12346"),
            ("name", .s "Payment API"),
            ("version", .s "v2"),
            ("status", .s "ACTIVE"),
            ("endpoint", .s "https://payment-processor.us-e1.cloudhub.io/api/v2"),
            ("instanceLabel", .s "payment-api-prod"),
            ("assetVersion", .s "2.1.3"),
            ("environment", .s environment)],
        .o [("id", .s "12347"),
            ("name", .s "Order API"),
            ("version", .s "v1"),
            ("status", .s "INACTIVE"),
            ("endpoint", .s "https://order-fulfillment-api.us-w2.cloudhub.io/api/v1"),
            ("instanceLabel", .s "order-api-prod"),
            ("assetVersion", .s "1.2.0"),
            ("environment", .s environment)]])]

/-- `list_apis` (lines 291-345). -/
def list_apis (mock : Bool) (environment : String) (r : RunResult) : ToolResult :=
  if mock then
    ⟨.json (list_apis_mock environment), []⟩
  else
    ⟨run_live r,
     [["anypoint-cli", "api-mgr", "api", "list", "--environment", environment]]⟩

/-- Mock payload of `get_api_analytics` for `api_id = "12346"` (lines
361-407): the Payment API with issues. -/
def get_api_analytics_payment (api_id period : String) : JVal :=
  .o [("apiId", .s api_id),
      ("period", .s period),
      ("metrics", .o [
        ("requests", .o [
          ("total", .n 45230),
          ("successful", .n 42150),
          ("failed", .n 3080),
          ("failureRate", .s "6.8%")]),
        ("responseTime", .o [
          ("average", .n 1850),
          ("p50", .n 1200),
          ("p95", .n 3500),
          ("p99", .n 5200),
          ("unit", .s "ms")]),
        ("errors", .o [
          ("timeout", .n 2100),
          ("serverError", .n 650),
          ("clientError", .n 330)]),
        ("policies", .o [
          ("rateLimitViolations", .n 125),
          ("authenticationFailures", .n 45)]),
        ("topEndpoints", .arr [
          .o [("path", .s "/api/v2/payments/process"), ("requests", .n 35000), ("avgResponseTime", .n 2100)],
          .o [("path", .s "/api/v2/payments/validate"), ("requests", .n 8000), ("avgResponseTime", .n 450)],
          .o [("path", .s "/api/v2/payments/status"), ("requests", .n 2230), ("avgResponseTime", .n 180)]])]),
      ("alerts", .arr [
        .o [("severity", .s "HIGH"),
            ("type", .s "RESPONSE_TIME_THRESHOLD"),
            ("message", .s "Average response time exceeded 1500ms threshold"),
            ("triggeredAt", .s "2026-02-14T09:30:00Z")],
        .o [("severity", .s "MEDIUM"),
            ("type", .s "ERROR_RATE_THRESHOLD"),
            ("message", .s "Error rate exceeded 5% threshold"),
            ("triggeredAt", .s "2026-02-14T10:15:00Z")]])]

/-- Mock payload of `get_api_analytics` for any other id (lines 409-432). -/
def get_api_analytics_default (api_id period : String) : JVal :=
  .o [("apiId", .s api_id),
      ("period", .s period),
      ("metrics", .o [
        ("requests", .o [
          ("total", .n 12450),
          ("successful", .n 12385),
          ("failed", .n 65),
          ("failureRate", .s "0.5%")]),
        ("responseTime", .o [
          ("average", .n 245),
          ("p50", .n 180),
          ("p95", .n 450),
          ("p99", .n 680),
          ("unit", .s "ms")]),
        ("errors", .o [
          ("timeout", .n 15),
          ("serverError", .n 25),
          ("clientError", .n 25)])])]

/-- Mock branch of `get_api_analytics` (lines 358-432). -/
def get_api_analytics_mock (api_id period : String) : JVal :=
  if api_id = "12346" then get_api_analytics_payment api_id period
  else get_api_analytics_default api_id period

/-- `get_api_analytics` (lines 347-445). -/
def get_api_analytics (mock : Bool) (api_id period environment : String)
    (r : RunResult) : ToolResult :=
  if mock then
    ⟨.json (get_api_analytics_mock api_id period), []⟩
  else
    ⟨run_live r,
     [["anypoint-cli", "api-mgr", "analytics", "query",
       "--api-id", api_id, "--period", period, "--environment", environment]]⟩

/-- Mock payload of `list_api_policies` (lines 457-491). -/
def list_api_policies_mock (api_id : String) : JVal :=
  .o [("apiId", .s api_id),
      ("policies", .arr [
        .o [("policyId", .s "rate-limiting-1"),
            ("name", .s "Rate Limiting"),
            ("enabled", .b true),
            ("configuration", .o [
              ("rateLimits", .arr [
                .o [("timePeriodInMilliseconds", .n 60000), ("maximumRequests", .n 1000)]])]),
            ("order", .n 1)],
        .o [("policyId", .s "client-id-enforcement-1"),
            ("name", .s "Client ID Enforcement"),
            ("enabled", .b true),
            ("configuration", .o [
              ("credentialsOriginHasHttpBasicAuthenticationHeader", .s "customExpression")]),
            ("order", .n 2)],
        .o [("policyId", .s "spike-control-1"),
            ("name", .s "Spike Control"),
            ("enabled", .b true),
            ("configuration", .o [
              ("maximumRequests", .n 100),
              ("timePeriodInMilliseconds", .n 1000)]),
            ("order", .n 3)]])]

/-- `list_api_policies` (lines 447-503). -/
def list_api_policies (mock : Bool) (api_id environment : String)
    (r : RunResult) : ToolResult :=
  if mock then
    ⟨.json (list_api_policies_mock api_id), []⟩
  else
    ⟨run_live r,
     [["anypoint-cli", "api-mgr", "policy", "list",
       "--api-id", api_id, "--environment", environment]]⟩

/-- Mock payload of `get_application_health` for `app_name =
"payment-processor"` (lines 519-571): `overallHealth = "DEGRADED"`. -/
def get_application_health_degraded (app_name environment now : String) : JVal :=
  .o [("applicationName", .s app_name),
      ("environment", .s environment),
      ("overallHealth", .s "DEGRADED"),
      ("timestamp", .s (now ++ "Z")),
      ("checks", .o [
        ("applicationStatus", .o [
          ("status", .s "HEALTHY"),
          ("message", .s "Application is running")]),
        ("workerHealth", .o [
          ("status", .s "HEALTHY"),
          ("workers", .arr [
            .o [("id", .s "worker-0"), ("status", .s "STARTED"), ("cpu", .s "45%"), ("memory", .s "68%")],
            .o [("id", .s "worker-1"), ("status", .s "STARTED"), ("cpu", .s "52%"), ("memory", .s "71%")]])]),
        ("responseTime", .o [
          ("status", .s "DEGRADED"),
          ("averageMs", .n 2100),
          ("threshold", .n 1500),
          ("message", .s "Response time exceeds acceptable threshold")]),
        ("errorRate", .o [
          ("status", .s "DEGRADED"),
          ("rate", .s "6.8%"),
          ("threshold", .s "5%"),
          ("message", .s "Error rate above acceptable threshold")]),
        ("connectivity", .o [
          ("status", .s "DEGRADED"),
          ("checks", .arr [
            .o [("name", .s "Payment Gateway"),
                ("status", .s "DEGRADED"),
                ("latency", .n 2500),
                ("message", .s "High latency detected")],
            .o [("name", .s "Database"),
                ("status", .s "HEALTHY"),
                ("latency", .n 45)]])])]),
      ("recommendations", .arr [
        .s "Investigate payment gateway latency issues",
        .s "Review error logs for timeout patterns",
        .s "Consider scaling workers if load continues"])]

/-- Mock payload of `get_application_health` for `app_name =
"order-fulfillment-api"` (lines 573-593): `overallHealth = "CRITICAL"`. -/
def get_application_health_critical (app_name environment now : String) : JVal :=
  .o [("applicationName", .s app_name),
      ("environment", .s environment),
      ("overallHealth", .s "CRITICAL"),
      ("timestamp", .s (now ++ "Z")),
      ("checks", .o [
        ("applicationStatus", .o [
          ("status", .s "FAILED"),
          ("message", .s "Application failed to start"),
          ("error", .s "Configuration property \x27db.host\x27 is missing")]),
        ("workerHealth", .o [
          ("status", .s "FAILED"),
          ("workers", .arr [])])]),
      ("recommendations", .arr [
        .s "Add missing configuration property \x27db.host\x27",
        .s "Redeploy application after fixing configuration"])]

/-- Mock payload of `get_application_health` for any other name (lines
595-606): `overallHealth = "HEALTHY"`. -/
def get_application_health_default (app_name environment now : String) : JVal :=
  .o [("applicationName", .s app_name),
      ("environment", .s environment),
      ("overallHealth", .s "HEALTHY"),
      ("timestamp", .s (now ++ "Z")),
      ("checks", .o [
        ("applicationStatus", .o [("status", .s "HEALTHY")]),
        ("workerHealth", .o [("status", .s "HEALTHY")]),
        ("responseTime", .o [("status", .s "HEALTHY"), ("averageMs", .n 245)]),
        ("errorRate", .o [("status", .s "HEALTHY"), ("rate", .s "0.5%")])])]

/-- Mock branch of `get_application_health` (lines 518-606). -/
def get_application_health_mock (app_name environment now : String) : JVal :=
  if app_name = "payment-processor" then
    get_application_health_degraded app_name environment now
  else if app_name = "order-fulfillment-api" then
    get_application_health_critical app_name environment now
  else
    get_application_health_default app_name environment now

/-- `get_application_health` (lines 509-619). -/
def get_application_health (mock : Bool) (app_name environment now : String)
    (r : RunResult) : ToolResult :=
  if mock then
    ⟨.json (get_application_health_mock app_name environment now), []⟩
  else
    ⟨run_live r,
     [["anypoint-cli", "runtime-mgr", "cloudhub-application", "describe",
       app_name, "--environment", environment]]⟩

/-- Mock payload of `get_worker_diagnostics` (lines 633-681). -/
def get_worker_diagnostics_mock (app_name worker_id environment : String) : JVal :=
  .o [("applicationName", .s app_name),
      ("workerId", .s worker_id),
      ("environment", .s environment),
      ("diagnostics", .o [
        ("status", .s "STARTED"),
        ("uptime", .s "3d 14h 23m"),
        ("resources", .o [
          ("cpu", .o [
            ("current", .s "52%"),
            ("average1m", .s "48%"),
            ("average5m", .s "45%"),
            ("average15m", .s "43%")]),
          ("memory", .o [
            ("used", .s "356 MB"),
            ("total", .s "500 MB"),
            ("percentage", .s "71%"),
            ("heapUsed", .s "280 MB"),
            ("heapMax", .s "400 MB")]),
          ("threads", .o [
            ("total", .n 45),
            ("active", .n 12),
            ("waiting", .n 33)])]),
        ("jvm", .o [
          ("version", .s "1.8.0_345"),
          ("vendor", .s "Oracle Corporation"),
          ("gcCount", .n 1523),
          ("gcTime", .s "12.5s")]),
        ("networking", .o [
          ("activeConnections", .n 24),
          ("requestsPerSecond", .n (153/10)),
          ("bytesIn", .s "1.2 GB"),
          ("bytesOut", .s "2.8 GB")]),
        ("issues", .arr [
          .o [("severity", .s "MEDIUM"),
              ("type", .s "HIGH_MEMORY_USAGE"),
              ("message", .s "Memory usage at 71% - approaching threshold"),
              ("recommendation", .s "Monitor memory usage and consider increasing worker size if sustained")]])])]

/-- `get_worker_diagnostics` (lines 621-694). -/
def get_worker_diagnostics (mock : Bool) (app_name worker_id environment : String)
    (r : RunResult) : ToolResult :=
  if mock then
    ⟨.json (get_worker_diagnostics_mock app_name worker_id environment), []⟩
  else
    ⟨run_live r,
     [["anypoint-cli", "runtime-mgr", "cloudhub-application", "describe",
       app_name, "--environment", environment]]⟩

/-- Mock payload of `restart_application` (lines 710-717). -/
def restart_application_mock (app_name environment now : String) : JVal :=
  .o [("status", .s "RESTARTING"),
      ("applicationName", .s app_name),
      ("environment", .s environment),
      ("message", .s ("Restart initiated for application " ++ app_name)),
      ("estimatedTime", .s "2-3 minutes"),
      ("timestamp", .s (now ++ "Z"))]

/-- `restart_application` (lines 700-729). -/
def restart_application (mock : Bool) (app_name environment now : String)
    (r : RunResult) : ToolResult :=
  if mock then
    ⟨.json (restart_application_mock app_name environment now), []⟩
  else
    ⟨run_live r,
     [["anypoint-cli", "runtime-mgr", "cloudhub-application", "restart",
       app_name, "--environment", environment]]⟩

/-- Mock payload of `deploy_application` (lines 746-755). -/
def deploy_application_mock (app_name environment : String) (workers : Int)
    (worker_type now : String) : JVal :=
  .o [("status", .s "DEPLOYING"),
      ("applicationName", .s app_name),
      ("environment", .s environment),
      ("workers", .n workers),
      ("workerType", .s worker_type),
      ("message", .s ("Deployment initiated for " ++ app_name)),
      ("estimatedTime", .s "3-5 minutes"),
      ("timestamp", .s (now ++ "Z"))]

/-- `deploy_application` (lines 731-770). -/
def deploy_application (mock : Bool) (app_name artifact_path environment : String)
    (workers : Int) (worker_type now : String) (r : RunResult) : ToolResult :=
  if mock then
    ⟨.json (deploy_application_mock app_name environment workers worker_type now), []⟩
  else
    ⟨run_live r,
     [["anypoint-cli", "runtime-mgr", "cloudhub-application", "deploy",
       app_name, artifact_path,
       "--environment", environment,
       "--workers", toString workers,
       "--workerSize", worker_type]]⟩

/-- Mock branch of `update_application_properties` (lines 783-797).
`parsed` is the abstract outcome of `json.loads(properties)`: `some v`
when the string parses to the JSON value `v`, `none` when `json.loads`
raises `json.JSONDecodeError`. -/
def update_application_properties_mock (app_name environment now : String)
    (parsed : Option JVal) : JVal :=
  match parsed with
  | some props_dict =>
      .o [("status", .s "UPDATING"),
          ("applicationName", .s app_name),
          ("environment", .s environment),
          ("updatedProperties", props_dict),
          ("message", .s "Configuration update initiated - application will restart"),
          ("timestamp", .s (now ++ "Z"))]
  | none =>
      .o [("error", .s "Invalid JSON format for properties")]

/-- `update_application_properties` (lines 772-810). -/
def update_application_properties (mock : Bool)
    (app_name properties : String) (parsed : Option JVal)
    (environment now : String) (r : RunResult) : ToolResult :=
  if mock then
    ⟨.json (update_application_properties_mock app_name environment now parsed), []⟩
  else
    ⟨run_live r,
     [["anypoint-cli", "runtime-mgr", "cloudhub-application", "modify",
       app_name, "--environment", environment, "--property", properties]]⟩

/-- Mock payload of `scale_application` (lines 824-833). -/
def scale_application_mock (app_name environment : String) (workers : Int)
    (now : String) : JVal :=
  .o [("status", .s "SCALING"),
      ("applicationName", .s app_name),
      ("environment", .s environment),
      ("currentWorkers", .n 2),
      ("targetWorkers", .n workers),
      ("message", .s ("Scaling application to " ++ toString workers ++ " workers")),
      ("estimatedTime", .s "2-4 minutes"),
      ("timestamp", .s (now ++ "Z"))]

/-- `scale_application` (lines 812-846). -/
def scale_application (mock : Bool) (app_name : String) (workers : Int)
    (environment now : String) (r : RunResult) : ToolResult :=
  if mock then
    ⟨.json (scale_application_mock app_name environment workers now), []⟩
  else
    ⟨run_live r,
     [["anypoint-cli", "runtime-mgr", "cloudhub-application", "modify",
       app_name, "--workers", toString workers, "--environment", environment]]⟩

/-- Mock payload of `clear_application_queues` (lines 858-868). -/
def clear_application_queues_mock (app_name environment now : String) : JVal :=
  .o [("status", .s "CLEARING"),
      ("applicationName", .s app_name),
      ("environment", .s environment),
      ("message", .s "Persistent queues are being cleared"),
      ("queueStats", .o [
        ("messagesBefore", .n 1247),
        ("messagesCleared", .n 1247)]),
      ("timestamp", .s (now ++ "Z"))]

/-- `clear_application_queues` (lines 848-881). -/
def clear_application_queues (mock : Bool) (app_name environment now : String)
    (r : RunResult) : ToolResult :=
  if mock then
    ⟨.json (clear_application_queues_mock app_name environment now), []⟩
  else
    ⟨run_live r,
     [["anypoint-cli", "runtime-mgr", "cloudhub-application", "clear-queues",
       app_name, "--environment", environment]]⟩

/-- Mock payload of `get_active_alerts` (lines 896-953). -/
def get_active_alerts_mock (environment : String) : JVal :=
  .o [("environment", .s environment),
      ("alerts", .arr [
        .o [("id", .s "alert-1001"),
            ("severity", .s "CRITICAL"),
            ("application", .s "order-fulfillment-api"),
            ("type", .s "APPLICATION_FAILURE"),
            ("message", .s "Application failed to start"),
            ("triggeredAt", .s "2026-02-14T08:00:00Z"),
            ("status", .s "ACTIVE")],
        .o [("id", .s "alert-1002"),
            ("severity", .s "HIGH"),
            ("application", .s "payment-processor"),
            ("type", .s "RESPONSE_TIME_THRESHOLD"),
            ("message", .s "Average response time exceeded 1500ms"),
            ("triggeredAt", .s "2026-02-14T09:30:00Z"),
            ("status", .s "ACTIVE"),
            ("details", .o [
              ("threshold", .n 1500),
              ("current", .n 2100),
              ("unit", .s "ms")])],
        .o [("id", .s "alert-1003"),
            ("severity", .s "MEDIUM"),
            ("application", .s "payment-processor"),
            ("type", .s "ERROR_RATE_THRESHOLD"),
            ("message", .s "Error rate exceeded 5%"),
            ("triggeredAt", .s "2026-02-14T10:15:00Z"),
            ("status", .s "ACTIVE"),
            ("details", .o [
              ("threshold", .s "5%"),
              ("current", .s "6.8%")])],
        .o [("id", .s "alert-1004"),
            ("severity", .s "MEDIUM"),
            ("application", .s "payment-processor"),
            ("type", .s "HIGH_MEMORY_USAGE"),
            ("message", .s "Worker memory usage at 71%"),
            ("triggeredAt", .s "2026-02-14T10:45:00Z"),
            ("status", .s "ACTIVE"),
            ("worker", .s "worker-1")]]),
      ("summary", .o [
        ("total", .n 4),
        ("critical", .n 1),
        ("high", .n 1),
        ("medium", .n 2),
        ("low", .n 0)])]

/-- `get_active_alerts` (lines 887-966). -/
def get_active_alerts (mock : Bool) (environment : String) (r : RunResult) : ToolResult :=
  if mock then
    ⟨.json (get_active_alerts_mock environment), []⟩
  else
    ⟨run_live r,
     [["anypoint-cli", "monitoring", "alert", "list",
       "--environment", environment]]⟩

/-- Mock payload of `diagnose_cards_sca_issue` (lines 982-1217). -/
def diagnose_cards_sca_issue_mock : JVal :=
  .o [("incident", .o [
        ("title", .s "Cards SCA Access Token Issues"),
        ("severity", .s "P2"),
        ("serviceImpacted", .s "Cards SCA"),
        ("customerImpact", .s "Users unable to perform eCommerce transactions"),
        ("startTime", .s "2024-09-06T18:30:00Z"),
        ("duration", .s "45 minutes (ongoing)")]),
      ("rootCause", .o [
        ("primaryIssue", .s "AWS Cognito System API timeout"),
        ("secondaryIssue", .s "OAuth authentication experience API returning 504 errors"),
        ("affectedComponents", .arr [
          .s "oauth-authentication-experience-api",
          .s "cards-sca-business-api",
          .s "cognito-system-api (external)"])]),
      ("metrics", .o [
        ("errorRate", .o [
          ("current", .s "12%"),
          ("threshold", .s "10%"),
          ("status", .s "CRITICAL")]),
        ("responseTime", .o [
          ("oauth-api", .o [
            ("p50", .s "5200ms"),
            ("p95", .s "timeout (>5000ms)"),
            ("expected", .s "500-800ms")])]),
        ("failedTransactions", .o [
          ("debit", .n 45),
          ("credit", .n 38),
          ("total", .n 83),
          ("last30min", .b true)]),
        ("rateLimiting", .o [
          ("remaining", .n 24),
          ("limit", .n 25),
          ("resetIn", .s "857 seconds"),
          ("status", .s "OK")])]),
      ("diagnosticChecks", .o [
        ("cognitoSystemAPI", .o [
          ("status", .s "DEGRADED"),
          ("responseTime", .s "5000ms+ (timeout)"),
          ("errorType", .s "Gateway Timeout"),
          ("recommendation", .s "Escalate to AWS Cognito team")]),
        ("oauthExperienceAPI", .o [
          ("status", .s "DEGRADED"),
          ("health", .s "STARTED but returning errors"),
          ("workers", .s "2/2 healthy"),
          ("issue", .s "Downstream dependency (Cognito) failing")]),
        ("cardsSCABusinessAPI", .o [
          ("status", .s "DEGRADED"),
          ("health", .s "STARTED but failing transactions"),
          ("workers", .s "3/3 healthy"),
          ("issue", .s "Cannot obtain access tokens from OAuth API")]),
        ("businessDashboard", .o [
          ("journeyFailures", .o [
            ("debitCards", .s "High failure rate on authentication step"),
            ("creditCards", .s "High failure rate on authentication step")]),
          ("failureRate", .s "12%"),
          ("trend", .s "Increasing")])]),
      ("testTransactions", .o [
        ("debitTests", .o [
          ("attempted", .n 5),
          ("successful", .n 0),
          ("failed", .n 5),
          ("errorMessage", .s "Unable to authenticate - access token unavailable")]),
        ("creditTests", .o [
          ("attempted", .n 5),
          ("successful", .n 1),
          ("failed", .n 4),
          ("errorMessage", .s "504 Gateway Timeout from OAuth API")])]),
      ("timeline", .arr [
        .o [("time", .s "18:30:00"),
            ("event", .s "First 504 errors detected from OAuth API"),
            ("source", .s "Application logs")],
        .o [("time", .s "18:32:00"),
            ("event", .s "Error rate spike detected in APPD"),
            ("metric", .s "Error rate increased from 2% to 8%")],
        .o [("time", .s "18:35:00"),
            ("event", .s "Customer complaints received"),
            ("impact", .s "eCommerce transactions failing")],
        .o [("time", .s "18:36:00"),
            ("event", .s "Failure rate exceeded 10% threshold"),
            ("action", .s "P3 ticket creation triggered")],
        .o [("time", .s "18:38:00"),
            ("event", .s "Cognito System API confirmed as root cause"),
            ("finding", .s "Consistent 5000ms+ response times")]]),
      ("remediationSteps", .arr [
        .o [("step", .n 1),
            ("action", .s "Verify Cognito System API health"),
            ("status", .s "COMPLETED"),
            ("finding", .s "Cognito API timing out - AWS issue suspected"),
            ("owner", .s "AWS Cognito team")],
        .o [("step", .n 2),
            ("action", .s "Check Cards SCA Business dashboard"),
            ("status", .s "COMPLETED"),
            ("finding", .s "Failure rate 12% on authentication journeys"),
            ("tool", .s "Business Intelligence Dashboard")],
        .o [("step", .n 3),
            ("action", .s "Perform 5 debit + 5 credit test transactions"),
            ("status", .s "COMPLETED"),
            ("result", .s "9/10 failed - consistent authentication errors")],
        .o [("step", .n 4),
            ("action", .s "Fetch MI report for customer impact"),
            ("status", .s "IN_PROGRESS"),
            ("command", .s "Query MI system for failed transactions in timeframe")],
        .o [("step", .n 5),
            ("action", .s "Create P3 ticket"),
            ("status", .s "REQUIRED"),
            ("reason", .s "Failure rate > 10% threshold"),
            ("justification", .s "Continuous errors impacting customer transactions")],
        .o [("step", .n 6),
            ("action", .s "Escalate to AWS Cognito team"),
            ("status", .s "REQUIRED"),
            ("reason", .s "Root cause in external dependency"),
            ("priority", .s "HIGH")],
        .o [("step", .n 7),
            ("action", .s "Implement circuit breaker (if prolonged)"),
            ("status", .s "PENDING"),
            ("reason", .s "Prevent cascade failures"),
            ("estimatedTime", .s "30 minutes")]]),
      ("p3TicketCriteria", .o [
        ("scenario1", .o [
          ("condition", .s "Spike occurs and resolves"),
          ("action", .s "Create P3 to analyze what happened"),
          ("preventive", .b true)]),
        ("scenario2", .o [
          ("condition", .s "Errors continuously coming"),
          ("action", .s "Create P3 to quickly investigate"),
          ("reactive", .b true),
          ("current", .s "THIS SCENARIO - ERRORS ONGOING")])]),
      ("recommendations", .o [
        ("immediate", .arr [
          .s "Escalate to AWS Cognito support team immediately",
          .s "Implement circuit breaker for OAuth API to prevent cascade failures",
          .s "Enable fallback authentication mechanism if available",
          .s "Increase timeout threshold temporarily (from 5s to 10s) to allow slow responses"]),
        ("shortTerm", .arr [
          .s "Add health check endpoint for Cognito System API",
          .s "Implement retry logic with exponential backoff",
          .s "Set up proactive alerts for Cognito API latency",
          .s "Create runbook for OAuth/Cognito failures"]),
        ("longTerm", .arr [
          .s "Implement authentication service redundancy",
          .s "Consider multi-region Cognito setup",
          .s "Add caching layer for frequently used tokens",
          .s "Implement graceful degradation for authentication failures"])]),
      ("monitoringAlerts", .o [
        ("existing", .arr [
          .o [("name", .s "OAuth API Error Rate"),
              ("threshold", .s "10%"),
              ("current", .s "12%"),
              ("status", .s "TRIGGERED")],
          .o [("name", .s "Response Time P95"),
              ("threshold", .s "2000ms"),
              ("current", .s "5000ms+"),
              ("status", .s "TRIGGERED")]]),
        ("recommended", .arr [
          .o [("name", .s "Cognito API Health Check"),
              ("threshold", .s "Response time > 3000ms"),
              ("severity", .s "HIGH")],
          .o [("name", .s "Cards SCA Transaction Failure Rate"),
              ("threshold", .s "> 5%"),
              ("severity", .s "MEDIUM")],
          .o [("name", .s "Access Token Generation Failures"),
              ("threshold", .s "> 3 failures in 5 minutes"),
              ("severity", .s "HIGH")]])]),
      ("customerImpact", .o [
        ("affectedUsers", .s "~500 users (estimated based on failed transactions)"),
        ("affectedTransactions", .n 83),
        ("revenueImpact", .s "~$12,450 in failed transactions"),
        ("customerExperience", .s "Unable to complete purchases - authentication failures"),
        ("duration", .s "45 minutes (ongoing)")])]

/-- `diagnose_cards_sca_issue` (lines 972-1230). -/
def diagnose_cards_sca_issue (mock : Bool) (environment : String)
    (r : RunResult) : ToolResult :=
  if mock then
    ⟨.json diagnose_cards_sca_issue_mock, []⟩
  else
    ⟨run_live r,
     [["anypoint-cli", "runtime-mgr", "cloudhub-application", "describe",
       "cards-sca-business-api", "--environment", environment]]⟩

/-- Mock payload of `diagnose_application_failure` for `app_name =
"order-fulfillment-api"` (lines 1244-1305). -/
def diagnose_application_failure_failed (app_name environment : String) : JVal :=
  .o [("applicationName", .s app_name),
      ("environment", .s environment),
      ("diagnosis", .o [
        ("rootCause", .s "MISSING_CONFIGURATION"),
        ("details", .s "Required configuration property \x27db.host\x27 is not set"),
        ("impact", .s "Application unable to start - service unavailable"),
        ("affectedUsers", .s "All users attempting to access order fulfillment service")]),
      ("timeline", .arr [
        .o [("timestamp", .s "2026-02-14T07:55:00Z"),
            ("event", .s "Deployment initiated"),
            ("user", .s "admin@company.com")],
        .o [("timestamp", .s "2026-02-14T07:58:00Z"),
            ("event", .s "Configuration validation failed")],
        .o [("timestamp", .s "2026-02-14T08:00:00Z"),
            ("event", .s "Application startup failed")]]),
      ("logs", .arr [
        .s "ERROR: Configuration property \x27db.host\x27 is required but not set",
        .s "FATAL: Application startup failed",
        .s "INFO: Application deployment failed: order-fulfillment-api"]),
      ("remediationSteps", .arr [
        .o [("step", .n 1),
            ("action", .s "Add missing configuration property"),
            ("command", .s "update_application_properties"),
            ("parameters", .o [
              ("app_name", .s app_name),
              ("properties", .s "\x7b\"db.host\": \"production-db.company.com\", \"db.port\": \"5432\"\x7d")])],
        .o [("step", .n 2),
            ("action", .s "Restart application"),
            ("command", .s "restart_application"),
            ("parameters", .o [
              ("app_name", .s app_name)])],
        .o [("step", .n 3),
            ("action", .s "Verify application health"),
            ("command", .s "get_application_health"),
            ("parameters", .o [
              ("app_name", .s app_name)])]]),
      ("preventionRecommendations", .arr [
        .s "Implement configuration validation in CI/CD pipeline",
        .s "Use environment-specific configuration management",
        .s "Add pre-deployment smoke tests"])]

/-- Mock payload of `diagnose_application_failure` for any other name
(lines 1307-1311). -/
def diagnose_application_failure_default (app_name environment : String) : JVal :=
  .o [("applicationName", .s app_name),
      ("environment", .s environment),
      ("message", .s "No critical failures detected for this application")]

/-- Mock branch of `diagnose_application_failure` (lines 1242-1311). -/
def diagnose_application_failure_mock (app_name environment : String) : JVal :=
  if app_name = "order-fulfillment-api" then
    diagnose_application_failure_failed app_name environment
  else
    diagnose_application_failure_default app_name environment

/-- `diagnose_application_failure` (lines 1232-1324). -/
def diagnose_application_failure (mock : Bool) (app_name environment : String)
    (r : RunResult) : ToolResult :=
  if mock then
    ⟨.json (diagnose_application_failure_mock app_name environment), []⟩
  else
    ⟨run_live r,
     [["anypoint-cli", "runtime-mgr", "cloudhub-application", "describe",
       app_name, "--environment", environment]]⟩

/-- Mock payload of `diagnose_performance_issue` for `app_name =
"payment-processor"` (lines 1337-1434). -/
def diagnose_performance_issue_poor (app_name environment : String) : JVal :=
  .o [("applicationName", .s app_name),
      ("environment", .s environment),
      ("performanceAnalysis", .o [
        ("overallRating", .s "POOR"),
        ("issues", .arr [
          .o [("type", .s "HIGH_RESPONSE_TIME"),
              ("severity", .s "HIGH"),
              ("metric", .s "Average response time: 2100ms"),
              ("threshold", .s "1500ms"),
              ("deviation", .s "+40%")],
          .o [("type", .s "BACKEND_LATENCY"),
              ("severity", .s "HIGH"),
              ("metric", .s "Payment gateway latency: 2500ms"),
              ("expectedRange", .s "500-1000ms"),
              ("deviation", .s "+150%")],
          .o [("type", .s "ERROR_RATE"),
              ("severity", .s "MEDIUM"),
              ("metric", .s "Error rate: 6.8%"),
              ("threshold", .s "5%"),
              ("primaryError", .s "Gateway timeout (68% of errors)")]]),
        ("bottlenecks", .arr [
          .o [("component", .s "Payment Gateway Integration"),
              ("impact", .s "High"),
              ("description", .s "External payment gateway showing high latency and timeout rate"),
              ("affectedEndpoints", .arr [
                .s "/api/v2/payments/process",
                .s "/api/v2/payments/validate"])],
          .o [("component", .s "Database Connection Pool"),
              ("impact", .s "Medium"),
              ("description", .s "Connection pool utilization at 80%"),
              ("recommendation", .s "Increase pool size or optimize queries")]]),
        ("recommendations", .arr [
          .o [("priority", .s "HIGH"),
              ("category", .s "External Integration"),
              ("recommendation", .s "Implement circuit breaker pattern for payment gateway"),
              ("expectedImpact", .s "Reduce timeout errors by 60-80%"),
              ("effort", .s "Medium")],
          .o [("priority", .s "HIGH"),
              ("category", .s "External Integration"),
              ("recommendation", .s "Add request timeout configuration (3s max)"),
              ("expectedImpact", .s "Prevent long-running requests from blocking workers"),
              ("effort", .s "Low")],
          .o [("priority", .s "MEDIUM"),
              ("category", .s "Caching"),
              ("recommendation", .s "Implement response caching for validation endpoints"),
              ("expectedImpact", .s "Reduce load by 30-40%"),
              ("effort", .s "Medium")],
          .o [("priority", .s "MEDIUM"),
              ("category", .s "Scaling"),
              ("recommendation", .s "Scale from 2 to 4 workers during peak hours"),
              ("expectedImpact", .s "Improve throughput and reduce queue times"),
              ("effort", .s "Low")],
          .o [("priority", .s "LOW"),
              ("category", .s "Database"),
              ("recommendation", .s "Increase database connection pool size"),
              ("expectedImpact", .s "Reduce connection wait times"),
              ("effort", .s "Low")]])]),
      ("metrics", .o [
        ("responseTime", .o [
          ("current", .n 2100),
          ("target", .n 1500),
          ("p95", .n 3500),
          ("p99", .n 5200)]),
        ("throughput", .o [
          ("requestsPerSecond", .n (25/2)),
          ("peakRequestsPerSecond", .n (283/10))]),
        ("resources", .o [
          ("cpuAverage", .s "48%"),
          ("memoryAverage", .s "69%"),
          ("workerUtilization", .s "High")])])]

/-- Mock payload of `diagnose_performance_issue` for any other name
(lines 1436-1443). -/
def diagnose_performance_issue_default (app_name environment : String) : JVal :=
  .o [("applicationName", .s app_name),
      ("environment", .s environment),
      ("performanceAnalysis", .o [
        ("overallRating", .s "GOOD"),
        ("message", .s "No significant performance issues detected")])]

/-- Mock branch of `diagnose_performance_issue` (lines 1335-1443). -/
def diagnose_performance_issue_mock (app_name environment : String) : JVal :=
  if app_name = "payment-processor" then
    diagnose_performance_issue_poor app_name environment
  else
    diagnose_performance_issue_default app_name environment

/-- `diagnose_performance_issue` (lines 1326-1456). -/
def diagnose_performance_issue (mock : Bool) (app_name environment : String)
    (r : RunResult) : ToolResult :=
  if mock then
    ⟨.json (diagnose_performance_issue_mock app_name environment), []⟩
  else
    ⟨run_live r,
     [["anypoint-cli", "monitoring", "metrics", "query",
       "--application", app_name, "--environment", environment]]⟩

/-- Mock payload of `execute_custom_anypoint_command` (lines 1472-1476). -/
def execute_custom_anypoint_command_mock (command : String) : JVal :=
  .o [("message", .s "Mock mode enabled - command not executed"),
      ("command", .s command),
      ("note", .s "Set MULESOFT_MOCK_MODE=false to execute real commands")]

/-- Python `str.split()` with no argument: split on runs of whitespace,
discarding empty pieces (this is how line 1479 builds the argv tail). -/
def pySplit (s : String) : List String :=
  (s.split Char.isWhitespace).filter (· ≠ "")

/-- Live-mode relay of `execute_custom_anypoint_command` (lines
1478-1490): unlike every other tool, a final `except Exception` clause
also converts spawn failures into a returned string. -/
def execute_custom_live (r : RunResult) : ToolOutcome :=
  match r with
  | .ok out => .raw out
  | .calledProcessError err => .raw ("Error: " ++ err)
  | .spawnFailure msg => .raw ("Error executing command: " ++ msg)

/-- `execute_custom_anypoint_command` (lines 1462-1490). -/
def execute_custom_anypoint_command (mock : Bool) (command : String)
    (r : RunResult) : ToolResult :=
  if mock then
    ⟨.json (execute_custom_anypoint_command_mock command), []⟩
  else
    ⟨execute_custom_live r, [["anypoint-cli"] ++ pySplit command]⟩

namespace RenderServer

/-- Handler `health` (render_server.py lines 17-26), registered for both
`GET /` and `GET /health`. `envNow` is the value of the
`MULESOFT_MOCK_MODE` environment variable at the time of the request
(the handler re-reads it with `os.getenv` on every call). -/
def health (envNow : Option String) (now : String) : JVal :=
  .o [("status", .s "healthy"),
      ("service", .s "MuleSoft MCP Server"),
      ("mode", .s (if pyLower (envNow.getD "true") = "true" then "MOCK" else "LIVE")),
      ("timestamp", .s (now ++ "Z")),
      ("version", .s "1.0.0")]

/-- Handler `info` (lines 28-71); its `mode` field is the raw
environment-variable value, read per call. -/
def info (envNow : Option String) : JVal :=
  .o [("server", .s "MuleSoft Anypoint Platform MCP Server"),
      ("description", .s "AI-powered incident management for MuleSoft"),
      ("mode", .s (envNow.getD "true")),
      ("scenarios", .arr [
        .o [("name", .s "order-fulfillment-api"),
            ("status", .s "FAILED"),
            ("issue", .s "Missing configuration")],
        .o [("name", .s "payment-processor"),
            ("status", .s "DEGRADED"),
            ("issue", .s "High latency, timeouts")],
        .o [("name", .s "oauth-authentication-experience-api"),
            ("status", .s "DEGRADED"),
            ("issue", .s "Cognito timeout (504)")],
        .o [("name", .s "cards-sca-business-api"),
            ("status", .s "DEGRADED"),
            ("issue", .s "OAuth token issues")],
        .o [("name", .s "customer-api"),
            ("status", .s "HEALTHY")],
        .o [("name", .s "inventory-sync-service"),
            ("status", .s "HEALTHY")]]),
      ("endpoints", .o [
        ("/", .s "Health check"),
        ("/info", .s "Server information"),
        ("/scenarios", .s "List available demo scenarios"),
        ("/docs", .s "API documentation")])]

/-- Handler `scenarios` (lines 73-107); a constant document. -/
def scenarios : JVal :=
  .o [("scenarios", .o [
        ("cards-sca", .o [
          ("title", .s "Cards SCA Access Token Issues"),
          ("severity", .s "P2"),
          ("service", .s "Cards SCA"),
          ("impact", .s "Users unable to perform eCommerce transactions"),
          ("root_cause", .s "AWS Cognito System API timeout (504)"),
          ("error_rate", .s "12%"),
          ("affected_users", .s "~500"),
          ("failed_transactions", .n 83)]),
        ("order-fulfillment", .o [
          ("title", .s "Order Fulfillment API Failure"),
          ("severity", .s "P1"),
          ("service", .s "Order Fulfillment"),
          ("impact", .s "Complete service outage"),
          ("root_cause", .s "Missing configuration property \x27db.host\x27"),
          ("status", .s "FAILED")]),
        ("payment-performance", .o [
          ("title", .s "Payment Processor Performance Degradation"),
          ("severity", .s "P2"),
          ("service", .s "Payment Processing"),
          ("impact", .s "Slow transaction processing"),
          ("root_cause", .s "Payment gateway latency"),
          ("response_time", .s "2100ms (threshold: 1500ms)"),
          ("error_rate", .s "6.8%")])]),
      ("note", .s "Use MCP protocol to interact with these scenarios via Claude Desktop")]

/-- Python `str.rstrip("/")` applied to `request.host_url` (line 116). -/
def rstripSlash (s : String) : String := s.dropRightWhile (· = '/')

/-- Handler `docs` (lines 109-162); `base_url` comes from the request,
`demo_mode.enabled` re-reads the environment variable per call. -/
def docs (envNow : Option String) (host_url : String) : JVal :=
  .o [("title", .s "MuleSoft MCP Server API"),
      ("version", .s "1.0.0"),
      ("description", .s "HTTP endpoints for the MuleSoft MCP Server running on Render"),
      ("base_url", .s (rstripSlash host_url)),
      ("endpoints", .arr [
        .o [("path", .s "/"),
            ("method", .s "GET"),
            ("description", .s "Health check endpoint"),
            ("response", .s "Server status and basic info")],
        .o [("path", .s "/info"),
            ("method", .s "GET"),
            ("description", .s "Detailed server information"),
            ("response", .s "Server details, mode, available scenarios")],
        .o [("path", .s "/scenarios"),
            ("method", .s "GET"),
            ("description", .s "List all demo scenarios"),
            ("response", .s "Available incident scenarios with details")],
        .o [("path", .s "/docs"),
            ("method", .s "GET"),
            ("description", .s "API documentation"),
            ("response", .s "This documentation")]]),
      ("mcp_integration", .o [
        ("note", .s "This server primarily operates via MCP (Model Context Protocol)"),
        ("usage", .s "Configure in Claude Desktop to access full MCP tools"),
        ("config_example", .o [
          ("mcpServers", .o [
            ("mulesoft", .o [
              ("command", .s "python"),
              ("args", .arr [.s "path/to/mulesoft_mcp_server_demo.py"]),
              ("env", .o [
                ("MULESOFT_MOCK_MODE", .s "true")])])])])]),
      ("demo_mode", .o [
        ("enabled", .b (pyLower (envNow.getD "true") == "true")),
        ("description", .s "Server runs with simulated data - no real MuleSoft connection required")])]

/-- Body of the 404 handler `not_found` (lines 164-170). -/
def not_found_body : JVal :=
  .o [("error", .s "Not Found"),
      ("message", .s "The requested endpoint does not exist"),
      ("available_endpoints", .arr [
        .s "/", .s "/health", .s "/info", .s "/scenarios", .s "/docs"])]

/-- Body of the 500 handler `internal_error` (lines 172-177). -/
def internal_error_body (e : String) : JVal :=
  .o [("error", .s "Internal Server Error"),
      ("message", .s e)]

/-- Route table of the Flask app: `/` and `/health` are both registered
on the `health` handler; any unmatched path falls to the 404 handler. -/
def dispatch (path : String) (envNow : Option String) (now host_url : String) :
    JVal × Nat :=
  if path = "/" ∨ path = "/health" then (health envNow now, 200)
  else if path = "/info" then (info envNow, 200)
  else if path = "/scenarios" then (scenarios, 200)
  else if path = "/docs" then (docs envNow host_url, 200)
  else (not_found_body, 404)

end RenderServer

/-- Process-level state for the mode-flag analysis: the value the
`MULESOFT_MOCK_MODE` environment variable had when the MCP-server module
was loaded (line 25 computes `MOCK_MODE` from it) and the value it has at
the time of a given call (`os.getenv` inside the Flask handlers). -/
structure SysState where
  startupEnv : Option String
  currentEnv : Option String

/-- `MOCK_MODE` (line 25): computed once, at startup. -/
def MOCK_MODE (s : SysState) : Bool := mockModeOf s.startupEnv

/-- A call of the `health` route in process state `s`: the handler
re-reads the environment variable, so it sees `s.currentEnv`. -/
def health_call (s : SysState) (now : String) : JVal :=
  RenderServer.health s.currentEnv now

/-- A call of the `info` route in process state `s`. -/
def info_call (s : SysState) : JVal := RenderServer.info s.currentEnv

/-- A call of the `docs` route in process state `s`. -/
def docs_call (s : SysState) (host_url : String) : JVal :=
  RenderServer.docs s.currentEnv host_url

/-- A call of the `list_applications` tool in process state `s`: the tool
branches on the startup-time `MOCK_MODE` boolean only. -/
def list_applications_call (s : SysState) (environment : String)
    (r : RunResult) : ToolResult :=
  list_applications (MOCK_MODE s) environment r

/-- A call of the `describe_application` tool in process state `s`. -/
def describe_application_call (s : SysState) (app_name environment : String)
    (r : RunResult) : ToolResult :=
  describe_application (MOCK_MODE s) app_name environment r

/-- A call of the `execute_custom_anypoint_command` tool in process
state `s`. -/
def execute_custom_anypoint_command_call (s : SysState) (command : String)
    (r : RunResult) : ToolResult :=
  execute_custom_anypoint_command (MOCK_MODE s) command r

def JVal.getStrIn (v : JVal) (k1 k2 : String) : Option String :=
  match v.lookup k1 with
  | some w => w.getStr k2
  | none => none

/-- Claim C1: in mock mode, each operation that branches on an application
name is a total function over names with exactly one default case: the
distinguished failing names (`"order-fulfillment-api"` in
`describe_application` and `diagnose_application_failure`;
`"payment-processor"` and `"order-fulfillment-api"` in
`get_application_health`) select the FAILED/DEGRADED/CRITICAL-flavored
literal payload, and every other name selects the default
HEALTHY-flavored literal. -/
theorem mock_name_branching_total (app env now : String) :
    (app ≠ "order-fulfillment-api" →
        describe_application_mock app env = describe_application_default app env
      ∧ diagnose_application_failure_mock app env
          = diagnose_application_failure_default app env)
  ∧ (app ≠ "payment-processor" → app ≠ "order-fulfillment-api" →
        get_application_health_mock app env now
          = get_application_health_default app env now)
  ∧ describe_application_mock "order-fulfillment-api" env
      = describe_application_failed "order-fulfillment-api" env
  ∧ get_application_health_mock "payment-processor" env now
      = get_application_health_degraded "payment-processor" env now
  ∧ get_application_health_mock "order-fulfillment-api" env now
      = get_application_health_critical "order-fulfillment-api" env now
  ∧ diagnose_application_failure_mock "order-fulfillment-api" env
      = diagnose_application_failure_failed "order-fulfillment-api" env
  ∧ (describe_application_failed app env).getStrIn "application" "status" = some "FAILED"
  ∧ (describe_application_default app env).getStrIn "application" "status" = some "STARTED"
  ∧ (get_application_health_degraded app env now).getStr "overallHealth" = some "DEGRADED"
  ∧ (get_application_health_critical app env now).getStr "overallHealth" = some "CRITICAL"
  ∧ (get_application_health_default app env now).getStr "overallHealth" = some "HEALTHY"
  ∧ (diagnose_application_failure_failed app env).getStrIn "diagnosis" "rootCause"
      = some "MISSING_CONFIGURATION"
  ∧ (diagnose_application_failure_default app env).getStr "message"
      = some "No critical failures detected for this application" := by
  refine ⟨fun h => ⟨?_, ?_⟩, fun h1 h2 => ?_, rfl, rfl, rfl, rfl,
    rfl, rfl, rfl, rfl, rfl, rfl, rfl⟩
  · simp [describe_application_mock, h]
  · simp [diagnose_application_failure_mock, h]
  · simp [get_application_health_mock, h1, h2]

/-- Witness for C1: the default branches at the concrete name
`"customer-api"`. -/
theorem mock_name_branching_total_witness :
    describe_application_mock "customer-api" "Production"
      = describe_application_default "customer-api" "Production"
  ∧ get_application_health_mock "customer-api" "Production" "2026-02-14T12:00:00"
      = get_application_health_default "customer-api" "Production" "2026-02-14T12:00:00" :=
  ⟨((mock_name_branching_total "customer-api" "Production" "2026-02-14T12:00:00").1
      (by decide)).1,
   (mock_name_branching_total "customer-api" "Production" "2026-02-14T12:00:00").2.1
      (by decide) (by decide)⟩

/-- Claim C2: in mock mode, `update_application_properties` with a
properties string that does not parse as JSON (`json.loads` raises, the
oracle yields `none`) returns a JSON error document rather than raising; with a
valid JSON string (oracle yields `some v`) it returns a document whose
`updatedProperties` field is exactly the parsed value. -/
theorem update_properties_error_handling (app props env now : String)
    (v : JVal) (r : RunResult) :
    update_application_properties true app props none env now r
      = ⟨.json (update_application_properties_mock app env now none), []⟩
  ∧ (update_application_properties_mock app env now none).lookup "error"
      = some (.s "Invalid JSON format for properties")
  ∧ update_application_properties true app props (some v) env now r
      = ⟨.json (update_application_properties_mock app env now (some v)), []⟩
  ∧ (update_application_properties_mock app env now (some v)).lookup "updatedProperties"
      = some v
  ∧ (update_application_properties_mock app env now (some v)).lookup "error" = none :=
  ⟨rfl, rfl, rfl, rfl, rfl⟩

/-- Claim C9: in mock mode the result of `get_application_logs` is
independent of `tail_lines` (and of the external process): any two values
of `tail_lines` give the identical document, `logLines` included. -/
theorem logs_ignore_tail_lines (app env now : String) (t1 t2 : Int)
    (r1 r2 : RunResult) :
    get_application_logs true app env t1 now r1
      = get_application_logs true app env t2 now r2 := rfl

/-- Claim C10: in mock mode `execute_custom_anypoint_command` spawns no
subprocess for any command string and returns a JSON document echoing the
command verbatim in its `command` field, with a note that the command was
not executed. -/
theorem mock_custom_command_no_subprocess (cmd : String) (r : RunResult) :
    (execute_custom_anypoint_command true cmd r).spawned = []
  ∧ (execute_custom_anypoint_command true cmd r).outcome
      = .json (execute_custom_anypoint_command_mock cmd)
  ∧ (execute_custom_anypoint_command_mock cmd).getStr "command" = some cmd
  ∧ (execute_custom_anypoint_command_mock cmd).getStr "message"
      = some "Mock mode enabled - command not executed" :=
  ⟨rfl, rfl, rfl, rfl⟩

/-- Claim C8: `GET /` and `GET /health` are registered on the same
handler, so for any fixed environment and clock state the two endpoints
return equal bodies (and status), and the body carries
`status = "healthy"`. -/
theorem root_and_health_identical (envNow : Option String) (now host_url : String) :
    RenderServer.dispatch "/" envNow now host_url
      = RenderServer.dispatch "/health" envNow now host_url
  ∧ (RenderServer.dispatch "/" envNow now host_url).1
      = RenderServer.health envNow now
  ∧ (RenderServer.health envNow now).getStr "status" = some "healthy" :=
  ⟨rfl, rfl, rfl⟩

/-- Counterexample to claim C3: in live mode, when the external
executable is absent (`subprocess.run` raises `FileNotFoundError`, a
spawn failure), `list_applications` propagates the language-level
exception instead of returning an error string — its `try` block catches
only `subprocess.CalledProcessError`. -/
theorem live_spawn_failure_propagates :
    (list_applications false "Production"
      (RunResult.spawnFailure "[Errno 2] No such file or directory: \x27anypoint-cli\x27")).outcome
    = ToolOutcome.exn "[Errno 2] No such file or directory: \x27anypoint-cli\x27" := rfl

/-- Amended claim C3: in live mode every tool returns a string result
when the external command runs (exit 0 or non-zero exit, the latter
degraded to an `"Error: "` string); but a spawn failure propagates as a
language-level exception from every tool except
`execute_custom_anypoint_command`, whose extra `except Exception` clause
degrades it to a returned `"Error executing command: "` string. -/
theorem live_error_string_degradation
    (env app api period worker artifact wt cmd props out err msg now : String)
    (n : Int) (parsed : Option JVal) :
    ((list_applications false env (.ok out)).outcome.returned = true
  ∧ (list_applications false env (.calledProcessError err)).outcome.returned = true
  ∧ (list_applications false env (.spawnFailure msg)).outcome = .exn msg)
  ∧ ((describe_application false app env (.ok out)).outcome.returned = true
  ∧ (describe_application false app env (.calledProcessError err)).outcome.returned = true
  ∧ (describe_application false app env (.spawnFailure msg)).outcome = .exn msg)
  ∧ ((get_application_logs false app env n now (.ok out)).outcome.returned = true
  ∧ (get_application_logs false app env n now (.calledProcessError err)).outcome.returned = true
  ∧ (get_application_logs false app env n now (.spawnFailure msg)).outcome = .exn msg)
  ∧ ((list_apis false env (.ok out)).outcome.returned = true
  ∧ (list_apis false env (.calledProcessError err)).outcome.returned = true
  ∧ (list_apis false env (.spawnFailure msg)).outcome = .exn msg)
  ∧ ((get_api_analytics false api period env (.ok out)).outcome.returned = true
  ∧ (get_api_analytics false api period env (.calledProcessError err)).outcome.returned = true
  ∧ (get_api_analytics false api period env (.spawnFailure msg)).outcome = .exn msg)
  ∧ ((list_api_policies false api env (.ok out)).outcome.returned = true
  ∧ (list_api_policies false api env (.calledProcessError err)).outcome.returned = true
  ∧ (list_api_policies false api env (.spawnFailure msg)).outcome = .exn msg)
  ∧ ((get_application_health false app env now (.ok out)).outcome.returned = true
  ∧ (get_application_health false app env now (.calledProcessError err)).outcome.returned = true
  ∧ (get_application_health false app env now (.spawnFailure msg)).outcome = .exn msg)
  ∧ ((get_worker_diagnostics false app worker env (.ok out)).outcome.returned = true
  ∧ (get_worker_diagnostics false app worker env (.calledProcessError err)).outcome.returned = true
  ∧ (get_worker_diagnostics false app worker env (.spawnFailure msg)).outcome = .exn msg)
  ∧ ((restart_application false app env now (.ok out)).outcome.returned = true
  ∧ (restart_application false app env now (.calledProcessError err)).outcome.returned = true
  ∧ (restart_application false app env now (.spawnFailure msg)).outcome = .exn msg)
  ∧ ((deploy_application false app artifact env n wt now (.ok out)).outcome.returned = true
  ∧ (deploy_application false app artifact env n wt now (.calledProcessError err)).outcome.returned = true
  ∧ (deploy_application false app artifact env n wt now (.spawnFailure msg)).outcome = .exn msg)
  ∧ ((update_application_properties false app props parsed env now (.ok out)).outcome.returned = true
  ∧ (update_application_properties false app props parsed env now (.calledProcessError err)).outcome.returned = true
  ∧ (update_application_properties false app props parsed env now (.spawnFailure msg)).outcome = .exn msg)
  ∧ ((scale_application false app n env now (.ok out)).outcome.returned = true
  ∧ (scale_application false app n env now (.calledProcessError err)).outcome.returned = true
  ∧ (scale_application false app n env now (.spawnFailure msg)).outcome = .exn msg)
  ∧ ((clear_application_queues false app env now (.ok out)).outcome.returned = true
  ∧ (clear_application_queues false app env now (.calledProcessError err)).outcome.returned = true
  ∧ (clear_application_queues false app env now (.spawnFailure msg)).outcome = .exn msg)
  ∧ ((get_active_alerts false env (.ok out)).outcome.returned = true
  ∧ (get_active_alerts false env (.calledProcessError err)).outcome.returned = true
  ∧ (get_active_alerts false env (.spawnFailure msg)).outcome = .exn msg)
  ∧ ((diagnose_cards_sca_issue false env (.ok out)).outcome.returned = true
  ∧ (diagnose_cards_sca_issue false env (.calledProcessError err)).outcome.returned = true
  ∧ (diagnose_cards_sca_issue false env (.spawnFailure msg)).outcome = .exn msg)
  ∧ ((diagnose_application_failure false app env (.ok out)).outcome.returned = true
  ∧ (diagnose_application_failure false app env (.calledProcessError err)).outcome.returned = true
  ∧ (diagnose_application_failure false app env (.spawnFailure msg)).outcome = .exn msg)
  ∧ ((diagnose_performance_issue false app env (.ok out)).outcome.returned = true
  ∧ (diagnose_performance_issue false app env (.calledProcessError err)).outcome.returned = true
  ∧ (diagnose_performance_issue false app env (.spawnFailure msg)).outcome = .exn msg)
  ∧ ((execute_custom_anypoint_command false cmd (.ok out)).outcome.returned = true
  ∧ (execute_custom_anypoint_command false cmd (.calledProcessError err)).outcome.returned = true
  ∧ (execute_custom_anypoint_command false cmd (.spawnFailure msg)).outcome
      = .raw ("Error executing command: " ++ msg)) := by
  repeat' apply And.intro
  all_goals rfl

/-- Counterexample to claim C4: two process states with the same
startup-time environment value but different call-time values give
different `GET /health` bodies, because the Flask handler re-reads
`MULESOFT_MOCK_MODE` with `os.getenv` on every call (render_server.py
line 23) instead of using a value read once at startup. -/
theorem health_route_rereads_env :
    (SysState.mk (some "true") (some "true")).startupEnv
      = (SysState.mk (some "true") (some "false")).startupEnv
  ∧ health_call (SysState.mk (some "true") (some "true")) "2026-02-14T12:00:00"
      ≠ health_call (SysState.mk (some "true") (some "false")) "2026-02-14T12:00:00" := by
  refine ⟨rfl, fun h => ?_⟩
  have h2 := congrArg (fun v => v.getStr "mode") h
  simp [health_call, RenderServer.health, JVal.getStr, JVal.lookup, List.lookup] at h2
  exact absurd h2 (by simp [pyLower])

/-- Amended claim C4: the MCP-server component reads the mode variable
exactly once at startup into `MOCK_MODE`, and every tool call branches
only on that startup-time boolean (it is unaffected by later values of
the variable); the HTTP wrapper, however, re-reads the environment
variable on every call of its `health`, `info` and `docs` routes, whose
responses therefore depend on the call-time value, not the startup
value. -/
theorem mode_flag_usage (e eₐ c cₐ : Option String)
    (env app cmd now host_url : String) (r : RunResult) :
    MOCK_MODE (SysState.mk e c) = MOCK_MODE (SysState.mk e cₐ)
  ∧ list_applications_call (SysState.mk e c) env r
      = list_applications_call (SysState.mk e cₐ) env r
  ∧ describe_application_call (SysState.mk e c) app env r
      = describe_application_call (SysState.mk e cₐ) app env r
  ∧ execute_custom_anypoint_command_call (SysState.mk e c) cmd r
      = execute_custom_anypoint_command_call (SysState.mk e cₐ) cmd r
  ∧ health_call (SysState.mk e c) now = health_call (SysState.mk eₐ c) now
  ∧ info_call (SysState.mk e c) = info_call (SysState.mk eₐ c)
  ∧ docs_call (SysState.mk e c) host_url = docs_call (SysState.mk eₐ c) host_url := by
  repeat' apply And.intro
  all_goals rfl

/-- Claim C5: in live mode, every tool returns the external command's
captured stdout verbatim on exit 0, and exactly the string `"Error: "`
followed by the captured stderr on a non-zero exit. -/
theorem live_relay_stdout_stderr
    (env app api period worker artifact wt cmd props out err now : String)
    (n : Int) (parsed : Option JVal) :
    ((list_applications false env (.ok out)).outcome = .raw out
  ∧ (list_applications false env (.calledProcessError err)).outcome = .raw ("Error: " ++ err))
  ∧ ((describe_application false app env (.ok out)).outcome = .raw out
  ∧ (describe_application false app env (.calledProcessError err)).outcome = .raw ("Error: " ++ err))
  ∧ ((get_application_logs false app env n now (.ok out)).outcome = .raw out
  ∧ (get_application_logs false app env n now (.calledProcessError err)).outcome = .raw ("Error: " ++ err))
  ∧ ((list_apis false env (.ok out)).outcome = .raw out
  ∧ (list_apis false env (.calledProcessError err)).outcome = .raw ("Error: " ++ err))
  ∧ ((get_api_analytics false api period env (.ok out)).outcome = .raw out
  ∧ (get_api_analytics false api period env (.calledProcessError err)).outcome = .raw ("Error: " ++ err))
  ∧ ((list_api_policies false api env (.ok out)).outcome = .raw out
  ∧ (list_api_policies false api env (.calledProcessError err)).outcome = .raw ("Error: " ++ err))
  ∧ ((get_application_health false app env now (.ok out)).outcome = .raw out
  ∧ (get_application_health false app env now (.calledProcessError err)).outcome = .raw ("Error: " ++ err))
  ∧ ((get_worker_diagnostics false app worker env (.ok out)).outcome = .raw out
  ∧ (get_worker_diagnostics false app worker env (.calledProcessError err)).outcome = .raw ("Error: " ++ err))
  ∧ ((restart_application false app env now (.ok out)).outcome = .raw out
  ∧ (restart_application false app env now (.calledProcessError err)).outcome = .raw ("Error: " ++ err))
  ∧ ((deploy_application false app artifact env n wt now (.ok out)).outcome = .raw out
  ∧ (deploy_application false app artifact env n wt now (.calledProcessError err)).outcome = .raw ("Error: " ++ err))
  ∧ ((update_application_properties false app props parsed env now (.ok out)).outcome = .raw out
  ∧ (update_application_properties false app props parsed env now (.calledProcessError err)).outcome = .raw ("Error: " ++ err))
  ∧ ((scale_application false app n env now (.ok out)).outcome = .raw out
  ∧ (scale_application false app n env now (.calledProcessError err)).outcome = .raw ("Error: " ++ err))
  ∧ ((clear_application_queues false app env now (.ok out)).outcome = .raw out
  ∧ (clear_application_queues false app env now (.calledProcessError err)).outcome = .raw ("Error: " ++ err))
  ∧ ((get_active_alerts false env (.ok out)).outcome = .raw out
  ∧ (get_active_alerts false env (.calledProcessError err)).outcome = .raw ("Error: " ++ err))
  ∧ ((diagnose_cards_sca_issue false env (.ok out)).outcome = .raw out
  ∧ (diagnose_cards_sca_issue false env (.calledProcessError err)).outcome = .raw ("Error: " ++ err))
  ∧ ((diagnose_application_failure false app env (.ok out)).outcome = .raw out
  ∧ (diagnose_application_failure false app env (.calledProcessError err)).outcome = .raw ("Error: " ++ err))
  ∧ ((diagnose_performance_issue false app env (.ok out)).outcome = .raw out
  ∧ (diagnose_performance_issue false app env (.calledProcessError err)).outcome = .raw ("Error: " ++ err))
  ∧ ((execute_custom_anypoint_command false cmd (.ok out)).outcome = .raw out
  ∧ (execute_custom_anypoint_command false cmd (.calledProcessError err)).outcome = .raw ("Error: " ++ err)) := by
  repeat' apply And.intro
  all_goals rfl

/-- Claim C7: every request whose path matches none of the defined routes
is answered with status 404 and a body whose `available_endpoints` list
is exactly the five documented valid paths and no others. -/
theorem unmatched_route_404 (path : String) (envNow : Option String)
    (now host_url : String) (h1 : path ≠ "/") (h2 : path ≠ "/health")
    (h3 : path ≠ "/info") (h4 : path ≠ "/scenarios") (h5 : path ≠ "/docs") :
    RenderServer.dispatch path envNow now host_url
      = (RenderServer.not_found_body, 404)
  ∧ RenderServer.not_found_body.lookup "available_endpoints"
      = some (.arr [.s "/", .s "/health", .s "/info", .s "/scenarios", .s "/docs"]) := by
  refine ⟨?_, rfl⟩
  simp [RenderServer.dispatch, h1, h2, h3, h4, h5]

/-- Witness for C7 at the concrete unmatched path `"/nope"`. -/
theorem unmatched_route_404_witness :
    RenderServer.dispatch "/nope" none "2026-02-14T12:00:00" "http://h/"
      = (RenderServer.not_found_body, 404)
  ∧ RenderServer.not_found_body.lookup "available_endpoints"
      = some (.arr [.s "/", .s "/health", .s "/info", .s "/scenarios", .s "/docs"]) :=
  unmatched_route_404 "/nope" none "2026-02-14T12:00:00" "http://h/"
    (by decide) (by decide) (by decide) (by decide) (by decide)

/-- Shape check on the mock outcome of a tool call: the call returned a
JSON document and its top-level keys include the given ones with the
given types. -/
def ToolResult.mockShape (t : ToolResult) (shape : List (String × JTy)) : Bool :=
  match t.outcome with
  | .json v => v.hasShape shape
  | _ => false

/-- Claim C6: every operation in the tool catalogue, called in mock mode
(with any parameter values, which subsumes the documented example
inputs), returns a JSON document whose top-level structure carries the
documented keys with the documented types. Keys listed per tool are
those common to every mock branch of that tool. -/
theorem mock_payload_shapes
    (env app api period worker artifact wt cmd now : String)
    (n : Int) (props : List (String × JVal)) (r : RunResult) :
    (list_applications true env r).mockShape
      [("applications", .arr), ("total", .num)] = true
  ∧ (describe_application true app env r).mockShape
      [("application", .obj)] = true
  ∧ (get_application_logs true app env n now r).mockShape
      [("applicationName", .str), ("environment", .str),
       ("logLines", .arr), ("timestamp", .str)] = true
  ∧ (list_apis true env r).mockShape [("apis", .arr)] = true
  ∧ (get_api_analytics true api period env r).mockShape
      [("apiId", .str), ("period", .str), ("metrics", .obj)] = true
  ∧ (list_api_policies true api env r).mockShape
      [("apiId", .str), ("policies", .arr)] = true
  ∧ (get_application_health true app env now r).mockShape
      [("applicationName", .str), ("environment", .str),
       ("overallHealth", .str), ("timestamp", .str), ("checks", .obj)] = true
  ∧ (get_worker_diagnostics true app worker env r).mockShape
      [("applicationName", .str), ("workerId", .str),
       ("environment", .str), ("diagnostics", .obj)] = true
  ∧ (restart_application true app env now r).mockShape
      [("status", .str), ("applicationName", .str), ("environment", .str),
       ("message", .str), ("estimatedTime", .str), ("timestamp", .str)] = true
  ∧ (deploy_application true app artifact env n wt now r).mockShape
      [("status", .str), ("applicationName", .str), ("environment", .str),
       ("workers", .num), ("workerType", .str), ("message", .str),
       ("estimatedTime", .str), ("timestamp", .str)] = true
  ∧ (update_application_properties true app "p" (some (.o props)) env now r).mockShape
      [("status", .str), ("applicationName", .str), ("environment", .str),
       ("updatedProperties", .obj), ("message", .str), ("timestamp", .str)] = true
  ∧ (scale_application true app n env now r).mockShape
      [("status", .str), ("applicationName", .str), ("environment", .str),
       ("currentWorkers", .num), ("targetWorkers", .num), ("message", .str),
       ("estimatedTime", .str), ("timestamp", .str)] = true
  ∧ (clear_application_queues true app env now r).mockShape
      [("status", .str), ("applicationName", .str), ("environment", .str),
       ("message", .str), ("queueStats", .obj), ("timestamp", .str)] = true
  ∧ (get_active_alerts true env r).mockShape
      [("environment", .str), ("alerts", .arr), ("summary", .obj)] = true
  ∧ (diagnose_cards_sca_issue true env r).mockShape
      [("incident", .obj), ("rootCause", .obj), ("metrics", .obj),
       ("diagnosticChecks", .obj), ("testTransactions", .obj),
       ("timeline", .arr), ("remediationSteps", .arr),
       ("p3TicketCriteria", .obj), ("recommendations", .obj),
       ("monitoringAlerts", .obj), ("customerImpact", .obj)] = true
  ∧ (diagnose_application_failure true app env r).mockShape
      [("applicationName", .str), ("environment", .str)] = true
  ∧ (diagnose_performance_issue true app env r).mockShape
      [("applicationName", .str), ("environment", .str),
       ("performanceAnalysis", .obj)] = true
  ∧ (execute_custom_anypoint_command true cmd r).mockShape
      [("message", .str), ("command", .str), ("note", .str)] = true := by
  repeat' apply And.intro
  all_goals
    simp only [list_applications, describe_application, get_application_logs,
      list_apis, get_api_analytics, list_api_policies, get_application_health,
      get_worker_diagnostics, restart_application, deploy_application,
      update_application_properties, scale_application, clear_application_queues,
      get_active_alerts, diagnose_cards_sca_issue, diagnose_application_failure,
      diagnose_performance_issue, execute_custom_anypoint_command,
      describe_application_mock, get_api_analytics_mock,
      get_application_health_mock, diagnose_application_failure_mock,
      diagnose_performance_issue_mock, eq_self_iff_true, if_true]
  all_goals first
    | rfl
    | (split <;> first | rfl | (split <;> rfl))

end MuleSoftDemo
